import Mathlib

/-!
Verification of the proximity-query core of the 3D space-exploration app.

The program under study is the `ProximityDetector` class (nearest-record
query with throttling, change detection and reset), the `loadAllPlanets`
loading sequence of `main.js`, and — modelled from the spec, since its
source is not part of the given tree — the record store with its
deduplication gate.

Modelling conventions:
* A JavaScript number is represented as `Option ℚ`: `some q` is the finite
  value `q`, `none` stands for a non-finite value (`NaN` or `±Infinity`).
  For the query's finite spacecraft position, every comparison
  (`distance < radius`, `distance < closestDistance`) evaluates to `false`
  whenever a non-finite value is involved, exactly as in IEEE semantics,
  and arithmetic on a non-finite operand stays non-finite; float rounding
  is out of scope.
* `THREE.Vector3.distanceTo` computes `√(dx²+dy²+dz²)`.  We keep squared
  distances (`d2`) and decide the source's comparisons through the
  equivalences `√d2 < c ↔ 0 ≤ c ∧ d2 < c·c` (for `d2 ≥ 0`) and
  `√a < √b ↔ a < b`, which avoids irrational values while deciding the
  same predicates.
* `Date.now()` is an explicit `now : ℤ` argument (milliseconds); the
  detector's mutable fields form an explicit state record threaded through
  the calls.
* The presentation-layer mesh handle carried in the source's result object
  is omitted: it is produced by a scene-graph traversal that the spec
  declares out of scope and no claim mentions it.
-/

/-- A JavaScript number: `some q` finite, `none` non-finite (`NaN`/`±∞`). -/
abbrev JSNum := Option ℚ

/-- The `coordinates_3d` triple of an enriched record (Frame A, light-years). -/
structure Coords3D where
  x_light_years : JSNum
  y_light_years : JSNum
  z_light_years : JSNum
deriving DecidableEq, Repr

/-- A raw `{x, y, z}` triple (used for Frame B `planet.position` and for
world positions). -/
structure Vec3 where
  x : JSNum
  y : JSNum
  z : JSNum
deriving DecidableEq, Repr

/-- The `characteristics` object of a record; only the field read by the
proximity code is modelled. -/
structure Characteristics where
  coordinates_3d : Option Coords3D
deriving DecidableEq, Repr

/-- One stored record, with the fields `ProximityDetector` reads. -/
structure Planet where
  pl_name : String
  hostname : String
  characteristics : Option Characteristics
  position : Option Vec3
deriving DecidableEq, Repr

/-- The spacecraft query position: a finite `THREE.Vector3`. -/
structure QVec where
  qx : ℚ
  qy : ℚ
  qz : ℚ
deriving DecidableEq, Repr

/-- `const globalScale = 10000`. -/
def globalScale : ℚ := 10000

/-- Frame A branch: `coords.*_light_years * 10 * globalScale` per component. -/
def frameAWorld (c : Coords3D) : Vec3 :=
  ⟨c.x_light_years.map (fun v => v * 10 * globalScale),
   c.y_light_years.map (fun v => v * 10 * globalScale),
   c.z_light_years.map (fun v => v * 10 * globalScale)⟩

/-- Frame B branch: `planet.position.* * 10 * globalScale` per component. -/
def frameBWorld (v : Vec3) : Vec3 :=
  ⟨v.x.map (fun q => q * 10 * globalScale),
   v.y.map (fun q => q * 10 * globalScale),
   v.z.map (fun q => q * 10 * globalScale)⟩

/-- The world position a record gets inside the scan loop:
`coordinates_3d` if present (no finiteness check in the source), else the
`position` fallback for records with `hostname === 'Sun'`, else `none`
(the loop's `continue`). -/
def worldPos (p : Planet) : Option Vec3 :=
  match p.characteristics.bind Characteristics.coordinates_3d with
  | some c => some (frameAWorld c)
  | none =>
    if p.hostname = "Sun" then
      match p.position with
      | some v => some (frameBWorld v)
      | none => none
    else none

/-- Squared Euclidean distance from the finite query point to a world
position; `none` when any component of the latter is non-finite (in the
source the resulting distance is then `NaN` or `∞` and fails every `<`). -/
def dist2From (p : QVec) (w : Vec3) : JSNum :=
  match w.x, w.y, w.z with
  | some a, some b, some c =>
    some ((p.qx - a) * (p.qx - a) + (p.qy - b) * (p.qy - b) +
      (p.qz - c) * (p.qz - c))
  | _, _, _ => none

/-- Decides `√d2 < c` for `d2 ≥ 0`, embedding the source's
`distance < bound` comparison on a squared distance. -/
def distLt (d2 c : ℚ) : Bool :=
  decide (0 ≤ c ∧ d2 < c * c)

/-- The result object `{ planet, distance, worldPosition }` (distance kept
squared, mesh handle omitted as out of scope). -/
structure ProximityResult where
  planet : Planet
  dist2 : ℚ
  worldPosition : Vec3
deriving DecidableEq, Repr

/-- `this.updateThrottle = 500` (ms). -/
def updateThrottle : ℤ := 500

/-- `this.searchRadius = 5000000` (scaled units). -/
def searchRadius : ℚ := 5000000

/-- The candidate a record contributes to the scan: its world position and
squared distance, provided both exist and the distance passes the strict
radius test `distance < searchRadius`. -/
def candOf (pos : QVec) (r : ℚ) (p : Planet) : Option ProximityResult :=
  match worldPos p with
  | none => none
  | some w =>
    match dist2From pos w with
    | none => none
    | some d2 => if distLt d2 r then some ⟨p, d2, w⟩ else none

/-- One iteration of the scan loop: keep the current best unless the new
record is an eligible candidate strictly closer than it
(`distance < closestDistance`, both already inside the radius and hence
with the squared comparison deciding the source's one). -/
def step (pos : QVec) (r : ℚ) (best : Option ProximityResult) (p : Planet) :
    Option ProximityResult :=
  match candOf pos r p with
  | none => best
  | some c =>
    match best with
    | none => some c
    | some b => if c.dist2 < b.dist2 then some c else some b

/-- The `for (const planet of allPlanets)` loop, started from
`closestPlanet = null, closestDistance = Infinity`. -/
def scanPlanets (pos : QVec) (r : ℚ) (l : List Planet) :
    Option ProximityResult :=
  List.foldl (step pos r) none l

/-- The mutable fields of a `ProximityDetector` instance. -/
structure DetectorState where
  lastClosestPlanet : Option ProximityResult
  lastUpdateTime : ℤ
deriving DecidableEq, Repr

/-- The constructor's field initialisation. -/
def initDetector : DetectorState := ⟨none, 0⟩

/-- `getClosestPlanet(position)`: throttle gate, `lastUpdateTime` update,
null/empty store check (which leaves the cache untouched), scan, and cache
update on the scan path.  The record list argument is `Option`al because
`dataService.getAllPlanets()` may be absent (`!allPlanets`). -/
def getClosestPlanet (s : DetectorState) (now : ℤ)
    (allPlanets : Option (List Planet)) (pos : QVec) :
    Option ProximityResult × DetectorState :=
  if now - s.lastUpdateTime < updateThrottle then
    (s.lastClosestPlanet, s)
  else
    match allPlanets with
    | none => (none, ⟨s.lastClosestPlanet, now⟩)
    | some l =>
      if l.length = 0 then (none, ⟨s.lastClosestPlanet, now⟩)
      else
        match scanPlanets pos searchRadius l with
        | some c => (some c, ⟨some c, now⟩)
        | none => (none, ⟨none, now⟩)

/-- `hasClosestPlanetChanged(currentClosest)`: null cases, then a
comparison of the two `pl_name`s only. -/
def hasClosestPlanetChanged (lastClosest current : Option ProximityResult) :
    Bool :=
  match lastClosest, current with
  | none, none => false
  | none, some _ => true
  | some _, none => true
  | some a, some b => a.planet.pl_name != b.planet.pl_name

/-- `reset()`: clears only the cached result. -/
def reset (s : DetectorState) : DetectorState :=
  ⟨none, s.lastUpdateTime⟩

-- Concrete test data used by witnesses and counterexamples.

/-- An enriched record 1 light-year out along x (Frame A only). -/
def recA : Planet :=
  { pl_name := "Proxima d", hostname := "Proxima Cen",
    characteristics := some { coordinates_3d := some ⟨some 1, some 0, some 0⟩ },
    position := none }

/-- An enriched record 2 light-years out along x (Frame A only). -/
def recB : Planet :=
  { pl_name := "Barnard b", hostname := "Barnard",
    characteristics := some { coordinates_3d := some ⟨some 2, some 0, some 0⟩ },
    position := none }

/-- A record far outside the 5000000-unit search radius. -/
def recFar : Planet :=
  { pl_name := "Kepler-452 b", hostname := "Kepler-452",
    characteristics := some { coordinates_3d := some ⟨some 1000, some 0, some 0⟩ },
    position := none }

/-- A solar-system record with only the Frame B `position` triple. -/
def recSolar : Planet :=
  { pl_name := "Earth", hostname := "Sun",
    characteristics := none,
    position := some ⟨some 1, some 0, some 0⟩ }

/-- The query point at the origin. -/
def q0 : QVec := ⟨0, 0, 0⟩

/-- The candidate `recA` contributes at the origin. -/
def candA : ProximityResult :=
  ⟨recA, 10000000000, ⟨some 100000, some 0, some 0⟩⟩

/-- The candidate `recB` contributes at the origin. -/
def candB : ProximityResult :=
  ⟨recB, 40000000000, ⟨some 200000, some 0, some 0⟩⟩

-- General lemmas about the scan loop.

/-- A candidate produced by `candOf` carries its record, a world position
for it, and a squared distance passing the strict radius test. -/
theorem candOf_inv (pos : QVec) (r : ℚ) (p : Planet) (c : ProximityResult)
    (h : candOf pos r p = some c) :
    c.planet = p ∧ worldPos p = some c.worldPosition ∧
      dist2From pos c.worldPosition = some c.dist2 ∧
      distLt c.dist2 r = true := by
  unfold candOf at h
  split at h
  · exact absurd h (by simp)
  · rename_i w hw
    split at h
    · exact absurd h (by simp)
    · rename_i d2 hd
      split at h
      · rename_i hr
        cases h
        exact ⟨rfl, hw, hd, hr⟩
      · exact absurd h (by simp)

/-- If the scan loop ends on `some c`, the candidate is either the initial
accumulator or contributed by some scanned record. -/
theorem foldl_step_mem (pos : QVec) (r : ℚ) :
    ∀ (l : List Planet) (best : Option ProximityResult) (c : ProximityResult),
      List.foldl (step pos r) best l = some c →
      best = some c ∨ ∃ p ∈ l, candOf pos r p = some c := by
  intro l
  induction l with
  | nil => intro best c h; exact Or.inl h
  | cons p rest ih =>
    intro best c h
    rw [List.foldl_cons] at h
    rcases ih (step pos r best p) c h with h1 | ⟨q, hq, hcq⟩
    · unfold step at h1
      cases hc : candOf pos r p with
      | none => rw [hc] at h1; exact Or.inl h1
      | some cp =>
        rw [hc] at h1
        cases best with
        | none =>
          simp only at h1
          exact Or.inr ⟨p, List.mem_cons_self p rest, by rw [hc, h1]⟩
        | some b =>
          simp only at h1
          by_cases hlt : cp.dist2 < b.dist2
          · rw [if_pos hlt] at h1
            exact Or.inr ⟨p, List.mem_cons_self p rest, by rw [hc, h1]⟩
          · rw [if_neg hlt] at h1
            exact Or.inl h1
    · exact Or.inr ⟨q, List.mem_cons_of_mem p hq, hcq⟩

/-- If the scan loop ends on `some c`, then `c` is at least as close as the
initial accumulator and as every candidate contributed by the list. -/
theorem foldl_step_min (pos : QVec) (r : ℚ) :
    ∀ (l : List Planet) (best : Option ProximityResult) (c : ProximityResult),
      List.foldl (step pos r) best l = some c →
      (∀ b, best = some b → c.dist2 ≤ b.dist2) ∧
      (∀ p ∈ l, ∀ c', candOf pos r p = some c' → c.dist2 ≤ c'.dist2) := by
  intro l
  induction l with
  | nil =>
    intro best c h
    refine ⟨fun b hb => ?_, fun p hp => absurd hp (List.not_mem_nil p)⟩
    rw [hb] at h; cases h; exact le_refl _
  | cons p rest ih =>
    intro best c h
    rw [List.foldl_cons] at h
    obtain ⟨hacc, hrest⟩ := ih (step pos r best p) c h
    constructor
    · intro b hb
      subst hb
      unfold step at hacc
      cases hc : candOf pos r p with
      | none => rw [hc] at hacc; exact hacc b rfl
      | some cp =>
        rw [hc] at hacc
        simp only at hacc
        by_cases hlt : cp.dist2 < b.dist2
        · rw [if_pos hlt] at hacc
          exact le_of_lt (lt_of_le_of_lt (hacc cp rfl) hlt)
        · rw [if_neg hlt] at hacc
          exact hacc b rfl
    · intro q hq c' hc'
      rcases List.mem_cons.mp hq with hq1 | hq2
      · subst hq1
        unfold step at hacc
        rw [hc'] at hacc
        cases best with
        | none => exact hacc c' rfl
        | some b =>
          simp only at hacc
          by_cases hlt : c'.dist2 < b.dist2
          · rw [if_pos hlt] at hacc
            exact hacc c' rfl
          · rw [if_neg hlt] at hacc
            exact le_trans (hacc b rfl) (le_of_not_lt hlt)
      · exact hrest q hq2 c' hc'

/-- The scan loop ends on `none` exactly when it started on `none` and no
scanned record contributed a candidate. -/
theorem foldl_step_none (pos : QVec) (r : ℚ) :
    ∀ (l : List Planet) (best : Option ProximityResult),
      List.foldl (step pos r) best l = none ↔
      (best = none ∧ ∀ p ∈ l, candOf pos r p = none) := by
  intro l
  induction l with
  | nil =>
    intro best
    simp only [List.foldl_nil]
    exact ⟨fun h => ⟨h, fun p hp => absurd hp (List.not_mem_nil p)⟩,
      fun h => h.1⟩
  | cons p rest ih =>
    intro best
    rw [List.foldl_cons, ih (step pos r best p)]
    constructor
    · rintro ⟨hstep, hall⟩
      unfold step at hstep
      cases hc : candOf pos r p with
      | none =>
        rw [hc] at hstep
        refine ⟨hstep, fun q hq => ?_⟩
        rcases List.mem_cons.mp hq with h1 | h2
        · subst h1; exact hc
        · exact hall q h2
      | some cp =>
        rw [hc] at hstep
        cases best with
        | none => exact absurd hstep (by simp)
        | some b =>
          simp only at hstep
          by_cases hlt : cp.dist2 < b.dist2
          · rw [if_pos hlt] at hstep; exact absurd hstep (by simp)
          · rw [if_neg hlt] at hstep; exact absurd hstep (by simp)
    · rintro ⟨hbest, hall⟩
      subst hbest
      refine ⟨?_, fun q hq => hall q (List.mem_cons_of_mem p hq)⟩
      unfold step
      rw [hall p (List.mem_cons_self p rest)]

/-- If the scan loop ends on `some c` then either the initial accumulator
survived unbeaten, or `c` was contributed at an index that strictly beats
the accumulator and every eligible earlier record: the source's strict
`distance < closestDistance` update keeps the first record attaining the
minimum. -/
theorem foldl_step_first (pos : QVec) (r : ℚ) :
    ∀ (l : List Planet) (best : Option ProximityResult) (c : ProximityResult),
      List.foldl (step pos r) best l = some c →
      best = some c ∨
      ∃ i, ∃ h : i < l.length,
        candOf pos r (l.get ⟨i, h⟩) = some c ∧
        (∀ b, best = some b → c.dist2 < b.dist2) ∧
        (∀ j, ∀ hj : j < i, ∀ c',
          candOf pos r (l.get ⟨j, Nat.lt_trans hj h⟩) = some c' →
            c.dist2 < c'.dist2) := by
  intro l
  induction l with
  | nil => intro best c h; exact Or.inl h
  | cons p rest ih =>
    intro best c h
    rw [List.foldl_cons] at h
    have hstep := ih (step pos r best p) c h
    unfold step at hstep
    cases hc : candOf pos r p with
    | none =>
      rw [hc] at hstep
      rcases hstep with h1 | ⟨i, hi, hcand, hbeats, hearly⟩
      · exact Or.inl h1
      · refine Or.inr ⟨i + 1, Nat.succ_lt_succ hi, hcand, hbeats, ?_⟩
        intro j hj c' hc'
        cases j with
        | zero =>
          have : candOf pos r p = some c' := hc'
          rw [hc] at this
          exact absurd this (by simp)
        | succ k =>
          exact hearly k (Nat.lt_of_succ_lt_succ hj) c' hc'
    | some cp =>
      rw [hc] at hstep
      cases best with
      | none =>
        simp only at hstep
        rcases hstep with h1 | ⟨i, hi, hcand, hbeats, hearly⟩
        · cases h1
          refine Or.inr ⟨0, Nat.succ_pos _, hc, ?_, ?_⟩
          · intro b hb; exact absurd hb (by simp)
          · intro j hj; exact absurd hj (Nat.not_lt_zero j)
        · have hccp : c.dist2 < cp.dist2 := hbeats cp rfl
          refine Or.inr ⟨i + 1, Nat.succ_lt_succ hi, hcand, ?_, ?_⟩
          · intro b hb; exact absurd hb (by simp)
          · intro j hj c' hc'
            cases j with
            | zero =>
              have : candOf pos r p = some c' := hc'
              rw [hc] at this
              cases this
              exact hccp
            | succ k =>
              exact hearly k (Nat.lt_of_succ_lt_succ hj) c' hc'
      | some b =>
        simp only at hstep
        by_cases hlt : cp.dist2 < b.dist2
        · rw [if_pos hlt] at hstep
          rcases hstep with h1 | ⟨i, hi, hcand, hbeats, hearly⟩
          · cases h1
            refine Or.inr ⟨0, Nat.succ_pos _, hc, ?_, ?_⟩
            · intro b' hb'; cases hb'; exact hlt
            · intro j hj; exact absurd hj (Nat.not_lt_zero j)
          · have hccp : c.dist2 < cp.dist2 := hbeats cp rfl
            refine Or.inr ⟨i + 1, Nat.succ_lt_succ hi, hcand, ?_, ?_⟩
            · intro b' hb'; cases hb'; exact lt_trans hccp hlt
            · intro j hj c' hc'
              cases j with
              | zero =>
                have : candOf pos r p = some c' := hc'
                rw [hc] at this
                cases this
                exact hccp
              | succ k =>
                exact hearly k (Nat.lt_of_succ_lt_succ hj) c' hc'
        · rw [if_neg hlt] at hstep
          rcases hstep with h1 | ⟨i, hi, hcand, hbeats, hearly⟩
          · exact Or.inl h1
          · have hcb : c.dist2 < b.dist2 := hbeats b rfl
            refine Or.inr ⟨i + 1, Nat.succ_lt_succ hi, hcand, ?_, ?_⟩
            · intro b' hb'; cases hb'; exact hcb
            · intro j hj c' hc'
              cases j with
              | zero =>
                have : candOf pos r p = some c' := hc'
                rw [hc] at this
                cases this
                exact lt_of_lt_of_le hcb (le_of_not_lt hlt)
              | succ k =>
                exact hearly k (Nat.lt_of_succ_lt_succ hj) c' hc'

-- General lemmas about `getClosestPlanet`.

/-- A throttled call returns the cache and leaves the state untouched. -/
theorem getClosest_throttled (s : DetectorState) (now : ℤ)
    (store : Option (List Planet)) (pos : QVec)
    (h : now - s.lastUpdateTime < updateThrottle) :
    getClosestPlanet s now store pos = (s.lastClosestPlanet, s) := by
  unfold getClosestPlanet
  rw [if_pos h]

/-- A call that passes the throttle gate with a present record list returns
exactly the scan's result. -/
theorem getClosest_scan_eq (s : DetectorState) (now : ℤ) (l : List Planet)
    (pos : QVec) (hgate : ¬ now - s.lastUpdateTime < updateThrottle) :
    (getClosestPlanet s now (some l) pos).1 = scanPlanets pos searchRadius l := by
  unfold getClosestPlanet
  rw [if_neg hgate]
  by_cases hl : l.length = 0
  · rw [List.length_eq_zero] at hl
    subst hl
    simp [scanPlanets]
  · simp only [if_neg hl]
    cases hscan : scanPlanets pos searchRadius l with
    | some c => simp [hscan]
    | none => simp [hscan]

/-- Every call that passes the throttle gate stamps `lastUpdateTime` with
the current time, whichever path it then takes. -/
theorem getClosest_time (s : DetectorState) (now : ℤ)
    (store : Option (List Planet)) (pos : QVec)
    (hgate : ¬ now - s.lastUpdateTime < updateThrottle) :
    (getClosestPlanet s now store pos).2.lastUpdateTime = now := by
  unfold getClosestPlanet
  rw [if_neg hgate]
  cases store with
  | none => rfl
  | some l =>
    by_cases hl : l.length = 0
    · simp [hl]
    · simp only [if_neg hl]
      cases hscan : scanPlanets pos searchRadius l with
      | some c => rfl
      | none => rfl

/-- On the scan path over a nonempty record list, the cache afterwards
equals the returned result. -/
theorem getClosest_cache_eq_result (s : DetectorState) (now : ℤ)
    (l : List Planet) (pos : QVec)
    (hgate : ¬ now - s.lastUpdateTime < updateThrottle) (hne : l ≠ []) :
    (getClosestPlanet s now (some l) pos).2.lastClosestPlanet =
      (getClosestPlanet s now (some l) pos).1 := by
  unfold getClosestPlanet
  rw [if_neg hgate]
  have hl : ¬ l.length = 0 := by
    intro h0
    exact hne (List.length_eq_zero.mp h0)
  simp only [if_neg hl]
  cases hscan : scanPlanets pos searchRadius l with
  | some c => rfl
  | none => rfl

/-- A gate-passing call that finds the record list missing returns `none`
and leaves the cached result untouched, stamping only the time. -/
theorem getClosest_missing (s : DetectorState) (now : ℤ) (pos : QVec)
    (hgate : ¬ now - s.lastUpdateTime < updateThrottle) :
    getClosestPlanet s now none pos = (none, ⟨s.lastClosestPlanet, now⟩) := by
  unfold getClosestPlanet
  rw [if_neg hgate]

/-- A gate-passing call that finds the record list empty returns `none`
and leaves the cached result untouched, stamping only the time. -/
theorem getClosest_empty (s : DetectorState) (now : ℤ) (pos : QVec)
    (hgate : ¬ now - s.lastUpdateTime < updateThrottle) :
    getClosestPlanet s now (some []) pos =
      (none, ⟨s.lastClosestPlanet, now⟩) := by
  unfold getClosestPlanet
  rw [if_neg hgate]
  rfl

example : candOf q0 searchRadius recA = some candA := by
  norm_num [candOf, worldPos, frameAWorld, dist2From, distLt, q0, searchRadius,
    recA, candA, globalScale]
example : candOf q0 searchRadius recFar = none := by
  norm_num [candOf, worldPos, frameAWorld, dist2From, distLt, q0, searchRadius,
    recFar, globalScale]
example : scanPlanets q0 searchRadius [recB, recA] = some candA := by
  norm_num [scanPlanets, step, candOf, worldPos, frameAWorld, dist2From, distLt,
    q0, searchRadius, recA, recB, candA, candB, globalScale]
example :
    (getClosestPlanet initDetector 1000 (some [recA, recB]) q0).1 =
      some candA := by
  norm_num [getClosestPlanet, initDetector, updateThrottle, scanPlanets, step,
    candOf, worldPos, frameAWorld, dist2From, distLt, q0, searchRadius, recA,
    recB, candA, globalScale]

-- Claim C1.

/-- Claim C1: a non-throttled nearest-record query scans the stored
records, computing squared Euclidean distance from the query point to each
record's canonical world position, and the returned record is an eligible
candidate (strictly inside the search radius) whose distance is minimal
over the whole store, contributed at an index all of whose eligible
predecessors are strictly farther — so an equal-distance tie is resolved
to the record encountered first in store iteration order. -/
theorem c1_nearest_query_first_min (s : DetectorState) (now : ℤ)
    (l : List Planet) (pos : QVec) (c : ProximityResult)
    (hgate : ¬ now - s.lastUpdateTime < updateThrottle)
    (hres : (getClosestPlanet s now (some l) pos).1 = some c) :
    (∃ i, ∃ h : i < l.length,
      candOf pos searchRadius (l.get ⟨i, h⟩) = some c ∧
      ∀ j, ∀ hj : j < i, ∀ c',
        candOf pos searchRadius (l.get ⟨j, Nat.lt_trans hj h⟩) = some c' →
          c.dist2 < c'.dist2) ∧
    (∀ p ∈ l, ∀ c', candOf pos searchRadius p = some c' →
      c.dist2 ≤ c'.dist2) := by
  rw [getClosest_scan_eq s now l pos hgate] at hres
  unfold scanPlanets at hres
  have hmin := foldl_step_min pos searchRadius l none c hres
  rcases foldl_step_first pos searchRadius l none c hres with
    h1 | ⟨i, hi, hcand, _, hearly⟩
  · exact absurd h1 (by simp)
  · exact ⟨⟨i, hi, hcand, hearly⟩, hmin.2⟩

/-- Witness for C1 at a concrete store: with the two-record store
`[recB, recA]` queried from the origin, `recA` (the closer record, found
second) is returned, is minimal, and strictly beats the earlier `recB`. -/
theorem c1_witness :
    (∃ i, ∃ h : i < ([recB, recA] : List Planet).length,
      candOf q0 searchRadius (([recB, recA] : List Planet).get ⟨i, h⟩) =
        some candA ∧
      ∀ j, ∀ hj : j < i, ∀ c',
        candOf q0 searchRadius
            (([recB, recA] : List Planet).get ⟨j, Nat.lt_trans hj h⟩) =
          some c' → candA.dist2 < c'.dist2) ∧
    (∀ p ∈ ([recB, recA] : List Planet), ∀ c',
      candOf q0 searchRadius p = some c' → candA.dist2 ≤ c'.dist2) :=
  c1_nearest_query_first_min initDetector 1000 [recB, recA] q0 candA
    (by norm_num [initDetector, updateThrottle])
    (by norm_num [getClosestPlanet, initDetector, updateThrottle, scanPlanets,
      step, candOf, worldPos, frameAWorld, dist2From, distLt, q0, searchRadius,
      recA, recB, candA, globalScale])

-- Claim C2.

/-- A record whose Frame A triple has a non-finite x component while a
perfectly good Frame B triple is available: the spec's policy would fall
through to Frame B, the code does not. -/
def recNanFrameA : Planet :=
  { pl_name := "Mercury", hostname := "Sun",
    characteristics := some { coordinates_3d := some ⟨none, some 0, some 0⟩ },
    position := some ⟨some 0, some 0, some 0⟩ }

/-- Claim C2 counterexample: `recNanFrameA` has Frame A present but with a
non-finite component, is a solar member with a finite Frame B triple whose
converted position lies at distance 0 (strictly inside the radius) from
the query — by the claim its canonical position would be taken from
Frame B and the nearest query would return it.  The code performs no
finiteness check: it takes the non-finite Frame A position and the query
returns `none`. -/
theorem c2_frame_policy_counterexample :
    recNanFrameA.characteristics.bind Characteristics.coordinates_3d =
      some ⟨none, some 0, some 0⟩ ∧
    recNanFrameA.hostname = "Sun" ∧
    recNanFrameA.position = some ⟨some 0, some 0, some 0⟩ ∧
    dist2From q0 (frameBWorld ⟨some 0, some 0, some 0⟩) = some 0 ∧
    distLt 0 searchRadius = true ∧
    worldPos recNanFrameA = some (frameAWorld ⟨none, some 0, some 0⟩) ∧
    (getClosestPlanet initDetector 1000 (some [recNanFrameA]) q0).1 = none := by
  refine ⟨rfl, rfl, rfl, ?_, ?_, rfl, ?_⟩
  · norm_num [dist2From, frameBWorld, q0, globalScale]
  · norm_num [distLt, searchRadius]
  · norm_num [getClosestPlanet, initDetector, updateThrottle, scanPlanets,
      step, candOf, worldPos, frameAWorld, dist2From, recNanFrameA, q0,
      globalScale]

/-- Claim C2 as amended: the canonical position is taken from Frame A
whenever that frame is present, with no finiteness check on its
components; otherwise, when the record's host is `"Sun"` and Frame B is
present, Frame B is converted by the fixed scale; otherwise the record is
skipped — it gets no zero-position fallback and a skipped record is never
the record returned by a nearest query. -/
theorem c2_frame_policy_amended (p : Planet) :
    (∀ c3, p.characteristics.bind Characteristics.coordinates_3d = some c3 →
      worldPos p = some (frameAWorld c3)) ∧
    (p.characteristics.bind Characteristics.coordinates_3d = none →
      p.hostname = "Sun" → ∀ v, p.position = some v →
      worldPos p = some (frameBWorld v)) ∧
    (p.characteristics.bind Characteristics.coordinates_3d = none →
      p.hostname ≠ "Sun" → worldPos p = none) ∧
    (p.characteristics.bind Characteristics.coordinates_3d = none →
      p.position = none → worldPos p = none) ∧
    (∀ pos r l c, worldPos p = none → scanPlanets pos r l = some c →
      c.planet ≠ p) := by
  refine ⟨?_, ?_, ?_, ?_, ?_⟩
  · intro c3 h3
    unfold worldPos
    rw [h3]
  · intro h3 hs v hv
    unfold worldPos
    rw [h3, hv]
    simp only [if_pos hs]
  · intro h3 hs
    unfold worldPos
    rw [h3]
    simp only [if_neg hs]
  · intro h3 hv
    unfold worldPos
    rw [h3, hv]
    by_cases hs : p.hostname = "Sun"
    · simp only [if_pos hs]
    · simp only [if_neg hs]
  · intro pos r l c hnone hscan hplanet
    unfold scanPlanets at hscan
    rcases foldl_step_mem pos r l none c hscan with h1 | ⟨q, _, hcq⟩
    · exact absurd h1 (by simp)
    · obtain ⟨hqp, hw, -, -⟩ := candOf_inv pos r q c hcq
      rw [hplanet] at hqp
      rw [← hqp] at hw
      rw [hnone] at hw
      exact absurd hw (by simp)

/-- A record with neither coordinate frame usable (not a solar member). -/
def recNoFrame : Planet :=
  { pl_name := "Ghost", hostname := "NoHost",
    characteristics := none,
    position := some ⟨some 3, some 3, some 3⟩ }

/-- Witness for the amended C2, exercising the Frame A branch, the Frame B
fallback and the rejection branch at concrete records. -/
theorem c2_amended_witness :
    worldPos recA = some (frameAWorld ⟨some 1, some 0, some 0⟩) ∧
    worldPos recSolar = some (frameBWorld ⟨some 1, some 0, some 0⟩) ∧
    worldPos recNoFrame = none :=
  ⟨(c2_frame_policy_amended recA).1 ⟨some 1, some 0, some 0⟩ rfl,
   (c2_frame_policy_amended recSolar).2.1 rfl rfl ⟨some 1, some 0, some 0⟩ rfl,
   (c2_frame_policy_amended recNoFrame).2.2.1 rfl (by simp [recNoFrame])⟩

-- Claim C3.

/-- The detector state after a first successful scan of `[recA]` at time
10000: cache `candA`, timestamp 10000. -/
def sCache : DetectorState := ⟨some candA, 10000⟩

/-- Claim C3 counterexample: two calls at times 10300 and 10600 are
separated by 300 ms, less than the 500 ms throttle interval, yet the
second call rescans — the gate compares against the last non-throttled
call (time 10000), not against the previous call.  The first call (being
throttled) returns the cached `candA`; the second returns `candB` from the
mutated store, so it does not return the previously computed result
unchanged. -/
theorem c3_throttle_counterexample :
    (getClosestPlanet initDetector 10000 (some [recA]) q0).2 = sCache ∧
    getClosestPlanet sCache 10300 (some [recB]) q0 = (some candA, sCache) ∧
    (getClosestPlanet sCache 10600 (some [recB]) q0).1 = some candB ∧
    (10600 : ℤ) - 10300 < updateThrottle ∧
    candA ≠ candB := by
  refine ⟨?_, ?_, ?_, by norm_num [updateThrottle], ?_⟩
  · norm_num [getClosestPlanet, initDetector, updateThrottle, scanPlanets,
      step, candOf, worldPos, frameAWorld, dist2From, distLt, q0, searchRadius,
      recA, candA, sCache, globalScale]
  · norm_num [getClosestPlanet, sCache, updateThrottle]
  · norm_num [getClosestPlanet, sCache, updateThrottle, scanPlanets, step,
      candOf, worldPos, frameAWorld, dist2From, distLt, q0, searchRadius,
      recB, candB, globalScale]
  · simp [candA, candB, recA, recB]

/-- Claim C3 as amended: the throttle interval is anchored at the most
recent call that passed the gate.  After such a call, any call strictly
within the interval returns the cached result with the state unchanged
(hence without rescanning, whatever the store now holds) — and that cached
result equals the anchoring call's own return value whenever that call
scanned a present, nonempty record list; a call at or beyond the interval
performs a fresh scan of the current store. -/
theorem c3_throttle_amended (s : DetectorState) (t1 t2 : ℤ)
    (store1 store2 : Option (List Planet)) (pos1 pos2 : QVec)
    (hgate : ¬ t1 - s.lastUpdateTime < updateThrottle) :
    (t2 - t1 < updateThrottle →
      getClosestPlanet (getClosestPlanet s t1 store1 pos1).2 t2 store2 pos2 =
        ((getClosestPlanet s t1 store1 pos1).2.lastClosestPlanet,
          (getClosestPlanet s t1 store1 pos1).2)) ∧
    (t2 - t1 < updateThrottle → ∀ l1, store1 = some l1 → l1 ≠ [] →
      (getClosestPlanet (getClosestPlanet s t1 store1 pos1).2
          t2 store2 pos2).1 =
        (getClosestPlanet s t1 store1 pos1).1) ∧
    (¬ t2 - t1 < updateThrottle → ∀ l2,
      (getClosestPlanet (getClosestPlanet s t1 store1 pos1).2
          t2 (some l2) pos2).1 =
        scanPlanets pos2 searchRadius l2) := by
  have htime := getClosest_time s t1 store1 pos1 hgate
  refine ⟨?_, ?_, ?_⟩
  · intro h2
    apply getClosest_throttled
    rw [htime]
    exact h2
  · intro h2 l1 hs1 hne
    rw [getClosest_throttled _ t2 store2 pos2 (by rw [htime]; exact h2)]
    subst hs1
    exact getClosest_cache_eq_result s t1 l1 pos1 hgate hne
  · intro h2 l2
    apply getClosest_scan_eq
    rw [htime]
    exact h2

/-- Witness for the amended C3: a non-throttled scan at time 1000, then a
call at 1300 (returns the cached scan result, ignoring the mutated store)
and a call at 1600 (rescans the mutated store). -/
theorem c3_amended_witness :
    getClosestPlanet (getClosestPlanet initDetector 1000 (some [recA]) q0).2
        1300 (some [recB]) q0 =
      ((getClosestPlanet initDetector 1000 (some [recA]) q0).2.lastClosestPlanet,
        (getClosestPlanet initDetector 1000 (some [recA]) q0).2) ∧
    (getClosestPlanet (getClosestPlanet initDetector 1000 (some [recA]) q0).2
        1300 (some [recB]) q0).1 =
      (getClosestPlanet initDetector 1000 (some [recA]) q0).1 ∧
    (getClosestPlanet (getClosestPlanet initDetector 1000 (some [recA]) q0).2
        1600 (some [recB]) q0).1 =
      scanPlanets q0 searchRadius [recB] :=
  ⟨(c3_throttle_amended initDetector 1000 1300 (some [recA]) (some [recB])
      q0 q0 (by norm_num [initDetector, updateThrottle])).1
      (by norm_num [updateThrottle]),
   (c3_throttle_amended initDetector 1000 1300 (some [recA]) (some [recB])
      q0 q0 (by norm_num [initDetector, updateThrottle])).2.1
      (by norm_num [updateThrottle]) [recA] rfl (by simp),
   (c3_throttle_amended initDetector 1000 1600 (some [recA]) (some [recB])
      q0 q0 (by norm_num [initDetector, updateThrottle])).2.2
      (by norm_num [updateThrottle]) [recB]⟩

-- Claim C4.

/-- Claim C4: a non-throttled nearest query returns `none` on a missing
record list, on an empty store, and whenever no record contributes an
eligible candidate (in particular when every record sits at or beyond the
search radius); any returned record's distance is strictly below the search
radius (the radius is a hard cutoff, so a record at radius + ε is never
returned); and when some record does lie strictly inside the radius the
query returns a result. -/
theorem c4_radius_cutoff (s : DetectorState) (now : ℤ) (pos : QVec)
    (hgate : ¬ now - s.lastUpdateTime < updateThrottle) :
    ((getClosestPlanet s now none pos).1 = none) ∧
    ((getClosestPlanet s now (some []) pos).1 = none) ∧
    (∀ l, (∀ p ∈ l, candOf pos searchRadius p = none) →
      (getClosestPlanet s now (some l) pos).1 = none) ∧
    (∀ l c, (getClosestPlanet s now (some l) pos).1 = some c →
      distLt c.dist2 searchRadius = true) ∧
    (∀ l, (∃ p ∈ l, ∃ c', candOf pos searchRadius p = some c') →
      (getClosestPlanet s now (some l) pos).1 ≠ none) := by
  refine ⟨?_, ?_, ?_, ?_, ?_⟩
  · rw [getClosest_missing s now pos hgate]
  · rw [getClosest_empty s now pos hgate]
  · intro l hall
    rw [getClosest_scan_eq s now l pos hgate]
    unfold scanPlanets
    exact (foldl_step_none pos searchRadius l none).mpr ⟨rfl, hall⟩
  · intro l c hres
    rw [getClosest_scan_eq s now l pos hgate] at hres
    unfold scanPlanets at hres
    rcases foldl_step_mem pos searchRadius l none c hres with h1 | ⟨p, _, hcp⟩
    · exact absurd h1 (by simp)
    · exact (candOf_inv pos searchRadius p c hcp).2.2.2
  · rintro l ⟨p, hp, c', hc'⟩ hres
    rw [getClosest_scan_eq s now l pos hgate] at hres
    unfold scanPlanets at hres
    have hall := (foldl_step_none pos searchRadius l none).mp hres
    rw [hall.2 p hp] at hc'
    exact absurd hc' (by simp)

/-- Witness for C4: missing list, empty store, a store whose only record
is far outside the radius (all yield `none`), and a store with an
in-radius record (yields a result). -/
theorem c4_witness :
    ((getClosestPlanet initDetector 1000 none q0).1 = none) ∧
    ((getClosestPlanet initDetector 1000 (some []) q0).1 = none) ∧
    ((getClosestPlanet initDetector 1000 (some [recFar]) q0).1 = none) ∧
    ((getClosestPlanet initDetector 1000 (some [recA]) q0).1 ≠ none) :=
  have hgate : ¬ (1000 : ℤ) - initDetector.lastUpdateTime < updateThrottle :=
    by norm_num [initDetector, updateThrottle]
  ⟨(c4_radius_cutoff initDetector 1000 q0 hgate).1,
   (c4_radius_cutoff initDetector 1000 q0 hgate).2.1,
   (c4_radius_cutoff initDetector 1000 q0 hgate).2.2.1 [recFar]
     (by
       intro p hp
       rw [List.mem_singleton.mp hp]
       norm_num [candOf, worldPos, frameAWorld, dist2From, distLt, q0,
         searchRadius, recFar, globalScale]),
   (c4_radius_cutoff initDetector 1000 q0 hgate).2.2.2.2 [recA]
     ⟨recA, by simp, candA,
       by norm_num [candOf, worldPos, frameAWorld, dist2From, distLt, q0,
         searchRadius, recA, candA, globalScale]⟩⟩

-- Claim C5.

/-- Claim C5: position reconciliation is a pure function of the record
(same record, same canonical position), and the Frame A and Frame B
branches apply one and the same fixed scale map, so a solar member with
Frame B `{x:1,y:0,z:0}` gets exactly the canonical position — hence the
canonical magnitude — of an exoplanet with Frame A `{x:1,y:0,z:0}`. -/
theorem c5_same_scale (c3 : Coords3D) (v : Vec3)
    (hx : c3.x_light_years = v.x) (hy : c3.y_light_years = v.y)
    (hz : c3.z_light_years = v.z) :
    frameAWorld c3 = frameBWorld v ∧
    (∀ p q : Planet, p = q → worldPos p = worldPos q) ∧
    worldPos recSolar = worldPos recA ∧
    dist2From q0 (frameBWorld ⟨some 1, some 0, some 0⟩) =
      dist2From q0 (frameAWorld ⟨some 1, some 0, some 0⟩) := by
  refine ⟨?_, ?_, ?_, rfl⟩
  · unfold frameAWorld frameBWorld
    rw [hx, hy, hz]
  · intro p q h
    rw [h]
  · norm_num [worldPos, frameAWorld, frameBWorld, recSolar, recA]

/-- Witness for C5 at the concrete triple `(2, 3, 4)`. -/
theorem c5_witness :
    frameAWorld ⟨some 2, some 3, some 4⟩ = frameBWorld ⟨some 2, some 3, some 4⟩ ∧
    (∀ p q : Planet, p = q → worldPos p = worldPos q) ∧
    worldPos recSolar = worldPos recA ∧
    dist2From q0 (frameBWorld ⟨some 1, some 0, some 0⟩) =
      dist2From q0 (frameAWorld ⟨some 1, some 0, some 0⟩) :=
  c5_same_scale ⟨some 2, some 3, some 4⟩ ⟨some 2, some 3, some 4⟩ rfl rfl rfl

-- Claim C6.

/-- Two results whose records share the display name but differ in host
designation (and in distance). -/
def resSameName1 : ProximityResult :=
  ⟨{ pl_name := "Kepler-22 b", hostname := "Kepler-22",
     characteristics := none, position := none }, 100,
   ⟨some 10, some 0, some 0⟩⟩

/-- Same display name as `resSameName1`, different host designation. -/
def resSameName2 : ProximityResult :=
  ⟨{ pl_name := "Kepler-22 b", hostname := "OtherHost",
     characteristics := none, position := none }, 400,
   ⟨some 20, some 0, some 0⟩⟩

/-- Claim C6 counterexample: the two results' identity keys
(display name, host designation) differ — the claim then requires the
change detector to report a change — yet the code compares display names
only and reports `false`. -/
theorem c6_change_detection_counterexample :
    hasClosestPlanetChanged (some resSameName1) (some resSameName2) = false ∧
    (resSameName1.planet.pl_name, resSameName1.planet.hostname) ≠
      (resSameName2.planet.pl_name, resSameName2.planet.hostname) := by
  constructor
  · rfl
  · simp [resSameName1, resSameName2]

/-- Claim C6 as amended: the change detector returns `false` when both
results are `none`, `true` when exactly one is `none`, and otherwise
compares display names only: `true` exactly when the display names differ,
`false` exactly when they coincide — host designations and distances are
not consulted, so two results for the same object at different distances
are reported unchanged. -/
theorem c6_change_detection_amended (a b : ProximityResult) :
    hasClosestPlanetChanged none none = false ∧
    hasClosestPlanetChanged none (some b) = true ∧
    hasClosestPlanetChanged (some a) none = true ∧
    (hasClosestPlanetChanged (some a) (some b) = true ↔
      a.planet.pl_name ≠ b.planet.pl_name) ∧
    (hasClosestPlanetChanged (some a) (some b) = false ↔
      a.planet.pl_name = b.planet.pl_name) := by
  refine ⟨rfl, rfl, rfl, ?_, ?_⟩
  · unfold hasClosestPlanetChanged
    exact bne_iff_ne
  · unfold hasClosestPlanetChanged
    simp

/-- Witness for the amended C6: records with different display names are a
change; equal display names (even with different hosts and distances) are
not. -/
theorem c6_amended_witness :
    hasClosestPlanetChanged (some candA) (some candB) = true ∧
    hasClosestPlanetChanged (some resSameName1) (some resSameName2) = false :=
  ⟨(c6_change_detection_amended candA candB).2.2.2.1.mpr
      (by simp [candA, candB, recA, recB]),
   (c6_change_detection_amended resSameName1 resSameName2).2.2.2.2.mpr rfl⟩

-- Claim C7.  The Record Store and Deduplicator live in the
-- `PlanetDataService`, whose source is not part of the given tree; the
-- definitions below are modelled from the spec (sections 3, 4.2, 4.3).

/-- Modelled from the spec: a raw catalog record as the store keys it —
display name, host designation, the is-solar-member flag, and an opaque
attribute payload standing for the remaining fields. -/
structure RawRecord where
  displayName : String
  hostDesignation : String
  isSolarMember : Bool
  attrs : String
deriving DecidableEq, Repr

/-- Modelled from the spec: the canonical key (display name, host
designation). -/
def recordKey (r : RawRecord) : String × String :=
  (r.displayName, r.hostDesignation)

/-- Modelled from the spec: the store as a key-indexed association
sequence. -/
abbrev Store := List ((String × String) × RawRecord)

/-- Modelled from the spec: `Store.get(key)`. -/
def storeGet : Store → String × String → Option RawRecord
  | [], _ => none
  | e :: rest, k => if e.1 = k then some e.2 else storeGet rest k

/-- Modelled from the spec: `Store.insert` silently ignores a second
insert for an existing key rather than overwriting. -/
def storeInsert (st : Store) (r : RawRecord) : Store :=
  if (storeGet st (recordKey r)).isSome then st
  else st ++ [(recordKey r, r)]

/-- Modelled from the spec: the admission gate is true exactly when the record's
canonical key is not yet in the store, so the already-seeded record
(solar seed included) is authoritative. -/
def admitRecord (st : Store) (r : RawRecord) : Bool :=
  (storeGet st (recordKey r)).isNone

/-- Modelled from the spec: ingestion applies the dedup gate at insertion
time. -/
def ingest (st : Store) (r : RawRecord) : Store :=
  if admitRecord st r then storeInsert st r else st

/-- Number of entries stored under a key. -/
def keyCount (st : Store) (k : String × String) : ℕ :=
  (st.filter (fun e => decide (e.1 = k))).length

/-- Lookup walks past a prefix that does not hold the key. -/
theorem storeGet_append_of_none (st : Store) (k : String × String)
    (l : Store) (h : storeGet st k = none) :
    storeGet (st ++ l) k = storeGet l k := by
  induction st with
  | nil => rfl
  | cons e rest ih =>
    unfold storeGet at h
    by_cases he : e.1 = k
    · rw [if_pos he] at h
      exact absurd h (by simp)
    · rw [if_neg he] at h
      rw [List.cons_append]
      show (if e.1 = k then some e.2 else storeGet (rest ++ l) k) = storeGet l k
      rw [if_neg he]
      exact ih h

/-- A key that lookup misses occurs zero times. -/
theorem keyCount_eq_zero (st : Store) (k : String × String)
    (h : storeGet st k = none) : keyCount st k = 0 := by
  induction st with
  | nil => rfl
  | cons e rest ih =>
    unfold storeGet at h
    by_cases he : e.1 = k
    · rw [if_pos he] at h
      exact absurd h (by simp)
    · rw [if_neg he] at h
      unfold keyCount at ih ⊢
      rw [List.filter_cons]
      simp only [he, decide_False, Bool.false_eq_true, if_false]
      exact ih h

/-- Claim C7: ingesting a seed record into a store free of its key and
then a later catalog record carrying the same canonical key but (possibly)
different attributes leaves exactly one record under that key, and looking
the key up returns the seed — the first-ingested (solar seed) record is
authoritative. -/
theorem c7_seed_wins (st0 : Store) (seed rec : RawRecord)
    (h0 : storeGet st0 (recordKey seed) = none)
    (hk : recordKey rec = recordKey seed) :
    storeGet (ingest (ingest st0 seed) rec) (recordKey seed) = some seed ∧
    keyCount (ingest (ingest st0 seed) rec) (recordKey seed) = 1 := by
  have h1 : ingest st0 seed = st0 ++ [(recordKey seed, seed)] := by
    unfold ingest admitRecord storeInsert
    rw [h0]
    rfl
  have hget1 : storeGet (ingest st0 seed) (recordKey seed) = some seed := by
    rw [h1, storeGet_append_of_none st0 _ _ h0]
    unfold storeGet
    rw [if_pos rfl]
  have h2 : ingest (ingest st0 seed) rec = ingest st0 seed := by
    generalize hst1 : ingest st0 seed = st1 at hget1 ⊢
    unfold ingest admitRecord
    rw [hk, hget1]
    rfl
  refine ⟨by rw [h2]; exact hget1, ?_⟩
  rw [h2, h1]
  unfold keyCount
  rw [List.filter_append, List.length_append]
  have hz := keyCount_eq_zero st0 (recordKey seed) h0
  unfold keyCount at hz
  rw [hz]
  simp

/-- The seeded solar-system record for Earth. -/
def seedEarth : RawRecord := ⟨"Earth", "Sun", true, "seed-attrs"⟩

/-- A later general-catalog record with Earth's key but other attributes. -/
def catalogEarth : RawRecord := ⟨"Earth", "Sun", false, "catalog-attrs"⟩

/-- Witness for C7: seeding Earth and then ingesting the conflicting
catalog record keeps exactly the seed. -/
theorem c7_witness :
    storeGet (ingest (ingest [] seedEarth) catalogEarth)
        (recordKey seedEarth) = some seedEarth ∧
    keyCount (ingest (ingest [] seedEarth) catalogEarth)
        (recordKey seedEarth) = 1 :=
  c7_seed_wins [] seedEarth catalogEarth rfl rfl

-- Claim C8.  `loadAllPlanets` (main.js) awaits
-- `planetDataService.loadSolarSystem()` and only then awaits
-- `exoplanetField.load()`; the tier fetches inside the latter are not
-- part of the given tree and are modelled from the spec as one fetch
-- step per declared tier.

/-- One step of the loading sequence: the awaited solar-system seeding, or
the fetch of one general-catalog tier. -/
inductive LoadStep where
  | loadSolarSystem : LoadStep
  | fetchExoTier : ℕ → LoadStep
deriving DecidableEq, Repr

/-- Modelled from the spec: `exoplanetField.load()` fetches the declared
tiers in increasing-distance order. -/
def exoFieldLoadTrace (tiers : ℕ) : List LoadStep :=
  (List.range tiers).map LoadStep.fetchExoTier

/-- The execution trace of `loadAllPlanets`: the solar-system load
completes (first `await`) before `exoplanetField.load()` starts (second
`await`). -/
def loadAllPlanetsTrace (tiers : ℕ) : List LoadStep :=
  [LoadStep.loadSolarSystem] ++ exoFieldLoadTrace tiers

/-- Claim C8: in the `loadAllPlanets` trace the solar-system seeding is
the first step, and every general-catalog tier fetch occurs strictly after
it — the sequence awaits solar-system completion before fetching any
exoplanet tier. -/
theorem c8_solar_seeded_first (tiers k : ℕ)
    (hk : k < (loadAllPlanetsTrace tiers).length) (t : ℕ)
    (ht : (loadAllPlanetsTrace tiers).get ⟨k, hk⟩ = LoadStep.fetchExoTier t) :
    0 < k ∧
    (loadAllPlanetsTrace tiers).head? = some LoadStep.loadSolarSystem := by
  refine ⟨?_, rfl⟩
  cases k with
  | zero => exact absurd ht (by simp [loadAllPlanetsTrace])
  | succ n => exact Nat.succ_pos n

/-- Witness for C8 with two declared tiers: the step at index 1 is a tier
fetch, so it comes after the solar-system load at index 0. -/
theorem c8_witness :
    0 < 1 ∧
    (loadAllPlanetsTrace 2).head? = some LoadStep.loadSolarSystem :=
  c8_solar_seeded_first 2 1 (by simp [loadAllPlanetsTrace, exoFieldLoadTrace])
    0 rfl

-- Claim C9.

/-- Claim C9: a non-throttled call that observes a missing or empty record
list returns `none` while leaving the cached last result untouched (only
the scan path overwrites the cache); a subsequent call within the throttle
interval therefore returns the stale pre-emptying result instead of
`none`. -/
theorem c9_stale_after_emptying (s : DetectorState) (now t2 : ℤ)
    (pos pos2 : QVec) (store2 : Option (List Planet)) (r : ProximityResult)
    (hgate : ¬ now - s.lastUpdateTime < updateThrottle)
    (hcache : s.lastClosestPlanet = some r)
    (hthr : t2 - now < updateThrottle) :
    (getClosestPlanet s now (some []) pos).1 = none ∧
    (getClosestPlanet s now none pos).1 = none ∧
    (getClosestPlanet s now (some []) pos).2.lastClosestPlanet = some r ∧
    (getClosestPlanet s now none pos).2.lastClosestPlanet = some r ∧
    (getClosestPlanet (getClosestPlanet s now (some []) pos).2
        t2 store2 pos2).1 = some r := by
  rw [getClosest_empty s now pos hgate, getClosest_missing s now pos hgate]
  refine ⟨rfl, rfl, hcache, hcache, ?_⟩
  rw [getClosest_throttled ⟨s.lastClosestPlanet, now⟩ t2 store2 pos2 hthr]
  exact hcache

/-- Witness for C9: a detector holding `candA` sees the store emptied at
time 1000 (returns `none`), then at 1300 — within the interval — returns
the stale `candA` although the current store is `[recB]`. -/
theorem c9_witness :
    (getClosestPlanet ⟨some candA, 0⟩ 1000 (some []) q0).1 = none ∧
    (getClosestPlanet ⟨some candA, 0⟩ 1000 none q0).1 = none ∧
    (getClosestPlanet ⟨some candA, 0⟩ 1000 (some []) q0).2.lastClosestPlanet =
      some candA ∧
    (getClosestPlanet ⟨some candA, 0⟩ 1000 none q0).2.lastClosestPlanet =
      some candA ∧
    (getClosestPlanet (getClosestPlanet ⟨some candA, 0⟩ 1000 (some []) q0).2
        1300 (some [recB]) q0).1 = some candA :=
  c9_stale_after_emptying ⟨some candA, 0⟩ 1000 1300 q0 q0 (some [recB]) candA
    (by norm_num [updateThrottle]) rfl (by norm_num [updateThrottle])

-- Claim C10.

/-- Claim C10: `reset` clears the cached result but not the throttle
timestamp, so every call made after a reset but still within the throttle
interval of the last gate-passing call returns `none` without touching the
store — whatever the store holds, in-radius records included. -/
theorem c10_reset_keeps_timestamp (s : DetectorState) (now : ℤ)
    (store : Option (List Planet)) (pos : QVec)
    (hthr : now - s.lastUpdateTime < updateThrottle) :
    (reset s).lastClosestPlanet = none ∧
    (reset s).lastUpdateTime = s.lastUpdateTime ∧
    getClosestPlanet (reset s) now store pos = (none, reset s) := by
  refine ⟨rfl, rfl, ?_⟩
  rw [getClosest_throttled (reset s) now store pos hthr]
  rfl

/-- Witness for C10: after a reset of a detector whose last scan was at
1000, a call at 1200 over a store holding the in-radius `recA` still
returns `none`. -/
theorem c10_witness :
    (reset ⟨some candA, 1000⟩).lastClosestPlanet = none ∧
    (reset ⟨some candA, 1000⟩).lastUpdateTime =
      (⟨some candA, 1000⟩ : DetectorState).lastUpdateTime ∧
    getClosestPlanet (reset ⟨some candA, 1000⟩) 1200 (some [recA]) q0 =
      (none, reset ⟨some candA, 1000⟩) :=
  c10_reset_keeps_timestamp ⟨some candA, 1000⟩ 1200 (some [recA]) q0
    (by norm_num [updateThrottle])
